import Mathlib

/-!
Verification of the RAG pipeline of `morhadi/rag-med`.

Shallow embedding of `src/backend/rag_pipeline.py`, `src/backend/memory.py`
and the upload validation of `src/backend/main.py`. The process-level mutable
globals (`_vectorstore`, the persisted `data/vectorstore` directory, and the
global conversation memory) are gathered into an explicit state record, and the
external collaborators (the per-format text extractors, the text splitter, the
retriever and the generation model) are parameters of the embedded operations.
-/

namespace RagMed

/-- Role of a message stored in the conversation memory
(`langchain ConversationBufferMemory` holds alternating human/AI messages). -/
inductive Role
  | user
  | assistant
deriving DecidableEq

/-- One message of the conversation memory of `src/backend/memory.py`. -/
structure Message where
  role : Role
  text : String
deriving DecidableEq

/-- A LangChain `Document`: `page_content` plus the `source` metadata entry,
as built in `process_documents` (rag_pipeline.py lines 140-145). Both the raw
extracted documents and the chunks stored in the index have this shape. -/
structure Document where
  page_content : String
  source : String
deriving DecidableEq

/-- The dictionary returned by `query_rag` (rag_pipeline.py lines 247-250,
259-262, 266-269): an `answer` string and a list of source names. -/
structure QueryResult where
  answer : String
  sources : List String
deriving DecidableEq

/-- The success dictionary returned by `process_documents`
(rag_pipeline.py lines 180-184). -/
structure ProcessStats where
  status : String
  documents_processed : Nat
  chunks_count : Nat
deriving DecidableEq

/-- State of the backend process: the module-level global `_vectorstore`
(rag_pipeline.py line 43), the persisted `data/vectorstore` directory
(line 33), and the global conversation memory (memory.py line 11). A Chroma
store is modelled as the list of chunks it holds, `none` meaning no store;
`diskStore = none` means the directory `data/vectorstore` does not exist.
The companion global `_qa_chain` (line 44) is set exactly when `_vectorstore`
is (lines 178, 244, 275-276), so it carries no separate information. -/
structure RAGState where
  vectorstore : Option (List Document)
  diskStore : Option (List Document)
  memory : List Message
deriving DecidableEq

/-- The final path component of a file path together with its suffix, as
computed by `Path(file_path).name` and `Path(file_path).suffix` in
`extract_text_from_file` (rag_pipeline.py lines 100-101). `pathlib` itself is
outside the repository, so the two components are taken as given. -/
structure PyPath where
  name : String
  suffix : String
deriving DecidableEq

/-- Python's `str.lower()` as used on file suffixes (rag_pipeline.py line
101, main.py line 60): lowercase each character. -/
def pyLower (s : String) : String :=
  ⟨s.data.map Char.toLower⟩

/-- The truthiness test `if text.strip():` of `process_documents`
(rag_pipeline.py line 139): `str.strip()` yields the empty string exactly
when every character of the text is whitespace, which is the falsy case. -/
def stripIsEmpty (text : String) : Bool :=
  text.data.all Char.isWhitespace

/-- The four file formats that have an entry in the `extractors` dispatch
table of `extract_text_from_file` (rag_pipeline.py lines 103-108). -/
inductive Fmt
  | pdf
  | docx
  | rtf
  | txt
deriving DecidableEq

/-- The `extractors` dispatch table of `extract_text_from_file`
(rag_pipeline.py lines 103-110): maps a lowercased extension to the format
whose extractor handles it, `none` when no extractor exists. -/
def extractors (extension : String) : Option Fmt :=
  if extension = ".pdf" then some Fmt.pdf
  else if extension = ".docx" then some Fmt.docx
  else if extension = ".rtf" then some Fmt.rtf
  else if extension = ".txt" then some Fmt.txt
  else none

/-- `extract_text_from_file` (rag_pipeline.py lines 93-116). The four
per-format extractors (`extract_text_from_pdf` etc., lines 46-91) perform IO
and each catches its own exceptions, returning a string in every case (the
empty string on failure); they are modelled by the parameter `extractFmt`.
The dispatch itself lowercases the suffix (line 101), looks it up in the
table, and returns `("", name)` when there is no extractor (lines 114-116).
It never raises. -/
def extract_text_from_file (extractFmt : Fmt → PyPath → String) (p : PyPath) :
    String × String :=
  match extractors (pyLower p.suffix) with
  | some fmt => (extractFmt fmt p, p.name)
  | none => ("", p.name)

/-- The `allowed_extensions` set of the `/upload` endpoint
(main.py line 59). -/
def allowed_extensions : List String :=
  [".pdf", ".docx", ".rtf", ".png", ".txt"]

/-- The per-file validation of `upload_files` (main.py lines 57-66): a file
passes iff its lowercased suffix is in `allowed_extensions`; otherwise the
endpoint raises a 400 error. -/
def uploadAccepts (p : PyPath) : Bool :=
  allowed_extensions.contains (pyLower p.suffix)

/-- `CHUNK_SIZE` (rag_pipeline.py line 34). -/
def CHUNK_SIZE : Nat := 1000

/-- `CHUNK_OVERLAP` (rag_pipeline.py line 35). -/
def CHUNK_OVERLAP : Nat := 200

/-- The extraction loop of `process_documents` (rag_pipeline.py lines
136-145): extract each file, keep a `Document` only when the extracted text
is non-empty after stripping (`if text.strip()`), tagging it with the file
name as `source`. -/
def extractedDocs (extractFmt : Fmt → PyPath → String) (file_paths : List PyPath) :
    List Document :=
  file_paths.filterMap (fun p =>
    let r := extract_text_from_file extractFmt p
    if stripIsEmpty r.1 then none else some ⟨r.1, r.2⟩)

/-- `process_documents` (rag_pipeline.py lines 118-188). The text splitter
(`RecursiveCharacterTextSplitter.split_documents`, lines 151-156) and the
embedding client (lines 160-163) are external collaborators; the splitter is
the parameter `split`, applied per document as `split_documents` does. If no
document survives extraction, a `ValueError` is raised (lines 147-148) and
re-raised by the outer handler (lines 186-188), modelled as `Except.error`.
Otherwise: when `_vectorstore` is not `None` the chunks are added to it
(lines 166-168, Chroma persisting them to its directory); when it is `None` a
new persisted store is created from exactly the chunks (lines 169-175). The
returned statistics are lines 180-184. The conversation memory is untouched. -/
def process_documents (extractFmt : Fmt → PyPath → String)
    (split : Document → List Document) (s : RAGState) (file_paths : List PyPath) :
    Except String (ProcessStats × RAGState) :=
  let documents := extractedDocs extractFmt file_paths
  if documents.isEmpty then
    Except.error "No text content extracted from uploaded files"
  else
    let chunks := documents.flatMap split
    let s' :=
      match s.vectorstore with
      | some vs =>
        { s with vectorstore := some (vs ++ chunks), diskStore := some (vs ++ chunks) }
      | none =>
        { s with vectorstore := some chunks, diskStore := some chunks }
    Except.ok (⟨"success", documents.length, chunks.length⟩, s')

/-- The fixed answer of the Cold state (rag_pipeline.py lines 247-250). -/
def noDocsAnswer : String :=
  "No documents have been uploaded yet. Please upload documents first."

/-- Python's `list(set(xs))` on the source names (rag_pipeline.py line 261):
deduplication with set semantics. A CPython set iterates in hash-dependent
order; the code applies no sort, so the order is modelled as first-occurrence
order. Only the membership and the absence of duplicates are faithful to the
source; the order is a modelling choice. -/
def pySetList : List String → List String
  | [] => []
  | x :: xs => x :: (pySetList xs).filter (fun y => y != x)

/-- Modelled from the spec: the `ConversationalRetrievalChain` collaborator
built by `create_qa_chain` (rag_pipeline.py lines 190-217) is LangChain code,
not part of this repository. Per spec section 4.6 steps 3 and 5, a chain call
retrieves documents for the question, invokes the external generation
capability, and appends the completed user/assistant turn to the conversation
memory; a collaborator failure is raised to the caller before any answer
exists, hence before any turn is appended. `retrieve` models the k=4
similarity retriever over the store and `gen` the fallible
embedding/generation step. -/
def chainCall (retrieve : String → List Document)
    (gen : String → Except String String) (question : String)
    (memory : List Message) :
    Except String (String × List Document × List Message) :=
  match gen question with
  | Except.error e => Except.error e
  | Except.ok ans =>
    Except.ok (ans, retrieve question,
      memory ++ [⟨Role.user, question⟩, ⟨Role.assistant, ans⟩])

/-- The warm path of `query_rag` (rag_pipeline.py lines 252-269): call the
chain (line 253); on success collect the `source` metadata of the retrieved
documents (lines 256-257), deduplicate with `list(set(...))` (line 261) and
return the answer; on any exception return the inline error result
(lines 264-269) leaving the state as it was when the chain was called. -/
def queryWithStore (retrieve : List Document → String → List Document)
    (gen : String → Except String String) (s : RAGState) (vs : List Document)
    (question : String) : QueryResult × RAGState :=
  match chainCall (retrieve vs) gen question s.memory with
  | Except.error e => (⟨"An error occurred: " ++ e, []⟩, s)
  | Except.ok (ans, docs, mem) =>
    (⟨ans, pySetList (docs.map (fun d => d.source))⟩, { s with memory := mem })

/-- `query_rag` (rag_pipeline.py lines 219-269). When `_vectorstore` is
`None` and the persisted directory exists, the store is loaded from disk and
the globals updated before querying (lines 235-245); when neither exists, the
fixed no-documents result is returned and nothing is touched (lines 246-250);
otherwise the in-memory store is queried directly. -/
def query_rag (retrieve : List Document → String → List Document)
    (gen : String → Except String String) (s : RAGState) (question : String) :
    QueryResult × RAGState :=
  match s.vectorstore with
  | some vs => queryWithStore retrieve gen s vs question
  | none =>
    match s.diskStore with
    | some persisted =>
      queryWithStore retrieve gen { s with vectorstore := some persisted }
        persisted question
    | none => (⟨noDocsAnswer, []⟩, s)

/-- `reset_vectorstore` (rag_pipeline.py lines 271-282): clears the
`_vectorstore` and `_qa_chain` globals and removes the persisted directory.
The conversation memory is not touched by this function. -/
def reset_vectorstore (s : RAGState) : RAGState :=
  { s with vectorstore := none, diskStore := none }

/-- Modelled from the spec: the Chunker. The repository delegates splitting
to LangChain's `RecursiveCharacterTextSplitter` (rag_pipeline.py lines
151-156), whose source is not part of this repository. Spec section 4.2:
greedily consume the document text in windows of `chunk_size` characters,
advancing the window start by `chunk_size - overlap` each step, the final
chunk possibly shorter. The `chunk_size ≤ overlap` disjunct only guards
termination and is never active at the configured sizes. -/
def splitGreedy (chunk_size overlap : Nat) (text : List Char) :
    List (List Char) :=
  if _h : text.length ≤ chunk_size ∨ chunk_size ≤ overlap then [text]
  else
    text.take chunk_size ::
      splitGreedy chunk_size overlap (text.drop (chunk_size - overlap))
termination_by text.length
decreasing_by
  simp only [List.length_drop]
  omega

/-- Concrete extractor collaborator used to exercise the theorems on
closed inputs: every supported format extracts the text `"hello"`. -/
def helloExtract : Fmt → PyPath → String := fun _ _ => "hello"

/-- Concrete splitter collaborator used to exercise the theorems on closed
inputs: keeps each document as a single chunk. -/
def idSplit : Document → List Document := fun d => [d]

/-! Helper lemmas shared by the claim theorems. -/

/-- The deduplicated source list contains no duplicates. -/
theorem pySetList_nodup (l : List String) : (pySetList l).Nodup := by
  induction l with
  | nil => exact List.nodup_nil
  | cons x xs ih =>
    refine List.Nodup.cons ?_ (List.Nodup.filter _ ih)
    intro hmem
    have hne := (List.mem_filter.mp hmem).2
    simp at hne

/-- Deduplication preserves membership. -/
theorem pySetList_mem (l : List String) (x : String) :
    x ∈ pySetList l ↔ x ∈ l := by
  induction l with
  | nil => simp [pySetList]
  | cons y ys ih =>
    simp only [pySetList, List.mem_cons, List.mem_filter, ih, bne_iff_ne]
    constructor
    · rintro (h | ⟨h, _⟩)
      · exact Or.inl h
      · exact Or.inr h
    · rintro (h | h)
      · exact Or.inl h
      · by_cases hxy : x = y
        · exact Or.inl hxy
        · exact Or.inr ⟨h, hxy⟩

/-- Deduplication preserves the set of elements. -/
theorem pySetList_toFinset (l : List String) :
    (pySetList l).toFinset = l.toFinset := by
  ext x
  simp [pySetList_mem]

/-- The Cold branch of `query_rag` (rag_pipeline.py lines 246-250). -/
theorem query_rag_cold (retrieve : List Document → String → List Document)
    (gen : String → Except String String) (s : RAGState) (question : String)
    (hvs : s.vectorstore = none) (hdisk : s.diskStore = none) :
    query_rag retrieve gen s question = (⟨noDocsAnswer, []⟩, s) := by
  unfold query_rag
  rw [hvs, hdisk]

/-- The warm branch of `query_rag`: with an in-memory store the chain is
queried directly (rag_pipeline.py line 253). -/
theorem query_rag_warm (retrieve : List Document → String → List Document)
    (gen : String → Except String String) (s : RAGState) (vs : List Document)
    (question : String) (hvs : s.vectorstore = some vs) :
    query_rag retrieve gen s question =
      queryWithStore retrieve gen s vs question := by
  unfold query_rag
  rw [hvs]

/-- The load branch of `query_rag`: with no in-memory store but a persisted
one, the store is loaded into the state before querying (rag_pipeline.py
lines 235-245). -/
theorem query_rag_load (retrieve : List Document → String → List Document)
    (gen : String → Except String String) (s : RAGState)
    (persisted : List Document) (question : String)
    (hvs : s.vectorstore = none) (hdisk : s.diskStore = some persisted) :
    query_rag retrieve gen s question =
      queryWithStore retrieve gen { s with vectorstore := some persisted }
        persisted question := by
  unfold query_rag
  rw [hvs, hdisk]

/-- The exception branch of `query_rag` (rag_pipeline.py lines 264-269):
the inline error result, state unchanged. -/
theorem queryWithStore_error (retrieve : List Document → String → List Document)
    (gen : String → Except String String) (s : RAGState) (vs : List Document)
    (question e : String) (hgen : gen question = Except.error e) :
    queryWithStore retrieve gen s vs question =
      (⟨"An error occurred: " ++ e, []⟩, s) := by
  unfold queryWithStore chainCall
  rw [hgen]

/-- The success branch of `query_rag` (rag_pipeline.py lines 252-262). -/
theorem queryWithStore_ok (retrieve : List Document → String → List Document)
    (gen : String → Except String String) (s : RAGState) (vs : List Document)
    (question a : String) (hgen : gen question = Except.ok a) :
    queryWithStore retrieve gen s vs question =
      (⟨a, pySetList ((retrieve vs question).map (fun d => d.source))⟩,
        { s with memory :=
          s.memory ++ [⟨Role.user, question⟩, ⟨Role.assistant, a⟩] }) := by
  unfold queryWithStore chainCall
  rw [hgen]

/-- Structure of a successful `process_documents` run: the returned
statistics and the new state in terms of the extracted documents and their
chunks. -/
theorem process_documents_ok (extractFmt : Fmt → PyPath → String)
    (split : Document → List Document) (s : RAGState) (paths : List PyPath)
    (r : ProcessStats) (s' : RAGState)
    (h : process_documents extractFmt split s paths = Except.ok (r, s')) :
    r = ⟨"success", (extractedDocs extractFmt paths).length,
        ((extractedDocs extractFmt paths).flatMap split).length⟩ ∧
      s'.vectorstore = some ((s.vectorstore.getD []) ++
        (extractedDocs extractFmt paths).flatMap split) ∧
      s'.diskStore = s'.vectorstore ∧
      s'.memory = s.memory := by
  unfold process_documents at h
  by_cases hemp : (extractedDocs extractFmt paths).isEmpty
  · rw [if_pos hemp] at h
    exact absurd h (by simp)
  · rw [if_neg hemp] at h
    cases hvs : s.vectorstore with
    | none =>
      rw [hvs] at h
      simp only [Except.ok.injEq, Prod.mk.injEq] at h
      obtain ⟨hr, hs⟩ := h
      subst hr
      subst hs
      refine ⟨rfl, ?_, rfl, rfl⟩
      simp [hvs]
    | some vs =>
      rw [hvs] at h
      simp only [Except.ok.injEq, Prod.mk.injEq] at h
      obtain ⟨hr, hs⟩ := h
      subst hr
      subst hs
      refine ⟨rfl, ?_, rfl, rfl⟩
      simp [hvs]

/-- When no document survives extraction, `process_documents` raises the
`ValueError` of rag_pipeline.py lines 147-148. -/
theorem process_documents_all_empty (extractFmt : Fmt → PyPath → String)
    (split : Document → List Document) (s : RAGState) (paths : List PyPath)
    (h : extractedDocs extractFmt paths = []) :
    process_documents extractFmt split s paths =
      Except.error "No text content extracted from uploaded files" := by
  unfold process_documents
  rw [h]
  rfl

/-- When at least one document survives extraction, `process_documents`
succeeds. -/
theorem process_documents_ok_of_ne (extractFmt : Fmt → PyPath → String)
    (split : Document → List Document) (s : RAGState) (paths : List PyPath)
    (h : extractedDocs extractFmt paths ≠ []) :
    (process_documents extractFmt split s paths).isOk = true := by
  unfold process_documents
  cases hD : extractedDocs extractFmt paths with
  | nil => exact absurd hD h
  | cons d ds =>
    cases s.vectorstore <;> rfl

/-- Every character of the input occurs in some chunk produced by
`splitGreedy`; auxiliary fuelled induction on the input length. -/
theorem splitGreedy_covers_aux (cs ov : Nat) :
    ∀ (n : Nat) (t : List Char), t.length ≤ n → ∀ c ∈ t,
      ∃ chunk ∈ splitGreedy cs ov t, c ∈ chunk := by
  intro n
  induction n with
  | zero =>
    intro t ht c hc
    have ht0 : t = [] := List.eq_nil_of_length_eq_zero (Nat.le_zero.mp ht)
    subst ht0
    exact absurd hc (List.not_mem_nil c)
  | succ n ih =>
    intro t ht c hc
    rw [splitGreedy]
    split
    · exact ⟨t, List.mem_singleton_self t, hc⟩
    · rename_i hcond
      push_neg at hcond
      obtain ⟨hlen, hov⟩ := hcond
      have hsplit : c ∈ t.take cs ++ t.drop cs := by
        rw [List.take_append_drop cs t]
        exact hc
      rcases List.mem_append.mp hsplit with htake | hdrop
      · exact ⟨t.take cs, List.mem_cons_self _ _, htake⟩
      · have hdd : c ∈ (t.drop (cs - ov)).drop ov := by
          rw [List.drop_drop]
          have hcs : cs - ov + ov = cs := by omega
          rw [hcs]
          exact hdrop
        have hdrop' : c ∈ t.drop (cs - ov) := List.mem_of_mem_drop hdd
        obtain ⟨chunk, hm, hcm⟩ := ih (t.drop (cs - ov))
          (by simp only [List.length_drop]; omega) c hdrop'
        exact ⟨chunk, List.mem_cons_of_mem _ hm, hcm⟩

/-- Coverage: no character of the input is dropped by `splitGreedy`. -/
theorem splitGreedy_covers (cs ov : Nat) (t : List Char) (c : Char)
    (hc : c ∈ t) : ∃ chunk ∈ splitGreedy cs ov t, c ∈ chunk :=
  splitGreedy_covers_aux cs ov t.length t (Nat.le_refl _) c hc

/-- A text no longer than the chunk size yields exactly one chunk. -/
theorem splitGreedy_single (cs ov : Nat) (t : List Char)
    (h : t.length ≤ cs) : splitGreedy cs ov t = [t] := by
  rw [splitGreedy]
  exact dif_pos (Or.inl h)

/-! The claim theorems. -/

/-- C1: in the Cold state — no in-memory index and no persisted index on
disk — `query_rag` returns exactly the fixed no-documents result with empty
sources, and leaves the conversation memory (indeed the whole state)
unchanged. -/
theorem C1_cold_query (retrieve : List Document → String → List Document)
    (gen : String → Except String String) (s : RAGState) (question : String)
    (hvs : s.vectorstore = none) (hdisk : s.diskStore = none) :
    query_rag retrieve gen s question = (⟨noDocsAnswer, []⟩, s) ∧
      ((query_rag retrieve gen s question).2).memory = s.memory := by
  have h := query_rag_cold retrieve gen s question hvs hdisk
  exact ⟨h, by rw [h]⟩

/-- Witness for C1: a concrete cold state and question. -/
theorem C1_cold_query_witness :
    query_rag (fun _ _ => []) (fun _ => Except.ok "a")
        ⟨none, none, []⟩ "hi" =
      (⟨noDocsAnswer, []⟩, ⟨none, none, []⟩) :=
  (C1_cold_query (fun _ _ => []) (fun _ => Except.ok "a")
    ⟨none, none, []⟩ "hi" rfl rfl).1

/-- C2: when the embedding/generation collaborator fails during a query
against an existing index (in memory or loadable from disk), `query_rag`
does not propagate the exception: it returns the structured inline error
result whose answer describes the failure and whose sources are empty. -/
theorem C2_failure_inline (retrieve : List Document → String → List Document)
    (gen : String → Except String String) (s : RAGState) (question e : String)
    (hwarm : s.vectorstore ≠ none ∨ s.diskStore ≠ none)
    (hgen : gen question = Except.error e) :
    (query_rag retrieve gen s question).1 =
      ⟨"An error occurred: " ++ e, []⟩ := by
  cases hvs : s.vectorstore with
  | some vs =>
    rw [query_rag_warm _ _ _ _ _ hvs, queryWithStore_error _ _ _ _ _ _ hgen]
  | none =>
    cases hdisk : s.diskStore with
    | some persisted =>
      rw [query_rag_load _ _ _ _ _ hvs hdisk,
        queryWithStore_error _ _ _ _ _ _ hgen]
    | none =>
      rcases hwarm with hw | hw
      · exact absurd hvs hw
      · exact absurd hdisk hw

/-- Witness for C2: a concrete warm state and a failing collaborator. -/
theorem C2_failure_inline_witness :
    (query_rag (fun _ _ => []) (fun _ => Except.error "boom")
        ⟨some [], none, []⟩ "q").1 =
      ⟨"An error occurred: " ++ "boom", []⟩ :=
  C2_failure_inline (fun _ _ => []) (fun _ => Except.error "boom")
    ⟨some [], none, []⟩ "q" "boom" (Or.inl (by decide)) rfl

/-- C3 as stated is false on the code: `query_rag` deduplicates the source
names with Python's `list(set(...))` but applies no lexicographic sort
(rag_pipeline.py line 261). At this input the retrieved chunks carry the
sources `"b"` then `"a"`, and the returned list is `["b", "a"]`, which is
not sorted lexicographically since `"b" ≤ "a"` fails. -/
theorem C3_sources_sorted_counterexample :
    ((query_rag (fun _ _ => [⟨"t1", "b"⟩, ⟨"t2", "a"⟩])
        (fun _ => Except.ok "ans")
        ⟨some [⟨"d", "b"⟩], some [⟨"d", "b"⟩], []⟩ "q").1).sources =
      ["b", "a"] ∧ ¬ (("b" : String) ≤ "a") := by
  refine ⟨rfl, ?_⟩
  rw [String.le_iff_toList_le]
  decide

/-- C3 amended: the sources of a successful query are the retrieved chunks'
source names with duplicates removed (set semantics: no duplicates, the same
set of elements), in the iteration order of the set rather than sorted; the
sources do not depend on the conversation memory, so querying again with the
same question against the same index returns the identical list. -/
theorem C3_sources_dedup_deterministic
    (retrieve : List Document → String → List Document)
    (gen : String → Except String String) (s s2 : RAGState)
    (vs : List Document) (question a : String)
    (hvs : s.vectorstore = some vs) (hvs2 : s2.vectorstore = some vs)
    (hgen : gen question = Except.ok a) :
    ((query_rag retrieve gen s question).1).sources.Nodup ∧
      ((query_rag retrieve gen s question).1).sources.toFinset =
        ((retrieve vs question).map (fun d => d.source)).toFinset ∧
      ((query_rag retrieve gen s2 question).1).sources =
        ((query_rag retrieve gen s question).1).sources := by
  have e1 : (query_rag retrieve gen s question).1 =
      ⟨a, pySetList ((retrieve vs question).map (fun d => d.source))⟩ := by
    rw [query_rag_warm _ _ _ _ _ hvs, queryWithStore_ok _ _ _ _ _ _ hgen]
  have e2 : (query_rag retrieve gen s2 question).1 =
      ⟨a, pySetList ((retrieve vs question).map (fun d => d.source))⟩ := by
    rw [query_rag_warm _ _ _ _ _ hvs2, queryWithStore_ok _ _ _ _ _ _ hgen]
  rw [e1, e2]
  exact ⟨pySetList_nodup _, pySetList_toFinset _, rfl⟩

/-- Witness for C3 amended: one retrieved chunk, two states sharing the
index but with different memories. -/
theorem C3_sources_dedup_deterministic_witness :
    ((query_rag (fun _ _ => [⟨"t", "s1.txt"⟩]) (fun _ => Except.ok "a")
        ⟨some [], none, []⟩ "q").1).sources.Nodup ∧
      ((query_rag (fun _ _ => [⟨"t", "s1.txt"⟩]) (fun _ => Except.ok "a")
        ⟨some [], none, []⟩ "q").1).sources.toFinset =
        (([⟨"t", "s1.txt"⟩] : List Document).map (fun d => d.source)).toFinset ∧
      ((query_rag (fun _ _ => [⟨"t", "s1.txt"⟩]) (fun _ => Except.ok "a")
        ⟨some [], none, [⟨Role.user, "m"⟩]⟩ "q").1).sources =
        ((query_rag (fun _ _ => [⟨"t", "s1.txt"⟩]) (fun _ => Except.ok "a")
        ⟨some [], none, []⟩ "q").1).sources :=
  C3_sources_dedup_deterministic (fun _ _ => [⟨"t", "s1.txt"⟩])
    (fun _ => Except.ok "a") ⟨some [], none, []⟩
    ⟨some [], none, [⟨Role.user, "m"⟩]⟩ [] "q" "a" rfl rfl rfl

/-- C4 as stated is false on the code: when the collaborator fails, no turn
is appended — the `except` branch of `query_rag` (rag_pipeline.py lines
264-269) returns without touching the memory, and the chain only saves a
turn after a completed answer — while a successful query appends two
messages. Here the failed query leaves the memory at 0 messages where the
successful one reaches 2. -/
theorem C4_failed_turn_counterexample :
    ((query_rag (fun _ _ => []) (fun _ => Except.error "boom")
        ⟨some [], some [], []⟩ "q").2).memory.length = 0 ∧
      ((query_rag (fun _ _ => []) (fun _ => Except.ok "fine")
        ⟨some [], some [], []⟩ "q").2).memory.length = 2 :=
  ⟨rfl, rfl⟩

/-- C4 amended: when the embedding/generation collaborator fails during a
query, the failed turn is not appended — the conversation memory is left
exactly as it was before the query. -/
theorem C4_failure_leaves_memory
    (retrieve : List Document → String → List Document)
    (gen : String → Except String String) (s : RAGState) (question e : String)
    (hgen : gen question = Except.error e) :
    ((query_rag retrieve gen s question).2).memory = s.memory := by
  cases hvs : s.vectorstore with
  | some vs =>
    rw [query_rag_warm _ _ _ _ _ hvs, queryWithStore_error _ _ _ _ _ _ hgen]
  | none =>
    cases hdisk : s.diskStore with
    | some persisted =>
      rw [query_rag_load _ _ _ _ _ hvs hdisk,
        queryWithStore_error _ _ _ _ _ _ hgen]
    | none => rw [query_rag_cold _ _ _ _ hvs hdisk]

/-- Witness for C4 amended: a failing collaborator over a warm state with
one prior message. -/
theorem C4_failure_leaves_memory_witness :
    ((query_rag (fun _ _ => []) (fun _ => Except.error "x")
        ⟨some [], none, [⟨Role.user, "m"⟩]⟩ "q").2).memory =
      [⟨Role.user, "m"⟩] :=
  C4_failure_leaves_memory (fun _ _ => []) (fun _ => Except.error "x")
    ⟨some [], none, [⟨Role.user, "m"⟩]⟩ "q" "x" rfl

/-- C5: a successful `process_documents` call leaves the index equal to its
prior contents followed by exactly the newly produced chunks — creating the
persisted store when the in-memory index was `None` (so the fresh index
holds exactly the new chunks), appending without rebuilding or removing
prior entries otherwise — and the reported chunk count matches, so the index
size is cumulative across ingested batches. -/
theorem C5_index_accumulation (extractFmt : Fmt → PyPath → String)
    (split : Document → List Document) (s : RAGState) (paths : List PyPath)
    (r : ProcessStats) (s' : RAGState)
    (h : process_documents extractFmt split s paths = Except.ok (r, s')) :
    s'.vectorstore = some ((s.vectorstore.getD []) ++
        (extractedDocs extractFmt paths).flatMap split) ∧
      r.chunks_count = ((extractedDocs extractFmt paths).flatMap split).length ∧
      (s'.vectorstore.getD []).length =
        (s.vectorstore.getD []).length + r.chunks_count ∧
      s'.diskStore = s'.vectorstore := by
  obtain ⟨hr, hv, hd, hm⟩ := process_documents_ok _ _ _ _ _ _ h
  subst hr
  refine ⟨hv, rfl, ?_, hd⟩
  rw [hv]
  simp

/-- Witness for C5: one batch of one `.txt` file appended to an index that
already holds one chunk. -/
theorem C5_index_accumulation_witness :
    (some [⟨"c", "old.txt"⟩, ⟨"hello", "a.txt"⟩] : Option (List Document)) =
        some ([⟨"c", "old.txt"⟩] ++ [⟨"hello", "a.txt"⟩]) ∧
      (1 : Nat) = 1 ∧
      (2 : Nat) = 1 + 1 ∧
      (some [⟨"c", "old.txt"⟩, ⟨"hello", "a.txt"⟩] : Option (List Document)) =
        some [⟨"c", "old.txt"⟩, ⟨"hello", "a.txt"⟩] :=
  C5_index_accumulation helloExtract idSplit
    ⟨some [⟨"c", "old.txt"⟩], some [⟨"c", "old.txt"⟩], []⟩
    [⟨"a.txt", ".txt"⟩] ⟨"success", 1, 1⟩
    ⟨some [⟨"c", "old.txt"⟩, ⟨"hello", "a.txt"⟩],
      some [⟨"c", "old.txt"⟩, ⟨"hello", "a.txt"⟩], []⟩ rfl

/-- C6: with the configured `CHUNK_SIZE = 1000` and `CHUNK_OVERLAP = 200`,
every character of a document text occurs in at least one chunk produced by
the Chunker (no silent truncation), and a text of at most `CHUNK_SIZE`
characters yields exactly one chunk. -/
theorem C6_chunker_coverage (t : List Char) :
    (∀ c ∈ t, ∃ chunk ∈ splitGreedy CHUNK_SIZE CHUNK_OVERLAP t, c ∈ chunk) ∧
      (t.length ≤ CHUNK_SIZE → splitGreedy CHUNK_SIZE CHUNK_OVERLAP t = [t]) :=
  ⟨fun c hc => splitGreedy_covers CHUNK_SIZE CHUNK_OVERLAP t c hc,
    fun h => splitGreedy_single CHUNK_SIZE CHUNK_OVERLAP t h⟩

/-- Witness for C6: the two-character text. -/
theorem C6_chunker_coverage_witness :
    (∃ chunk ∈ splitGreedy CHUNK_SIZE CHUNK_OVERLAP ['a', 'b'], 'a' ∈ chunk) ∧
      splitGreedy CHUNK_SIZE CHUNK_OVERLAP ['a', 'b'] = [['a', 'b']] :=
  ⟨(C6_chunker_coverage ['a', 'b']).1 'a' (by decide),
    (C6_chunker_coverage ['a', 'b']).2 (by decide)⟩

/-- C7: after `reset_vectorstore` the in-memory index and the persisted
directory are both gone, so any query before a new upload returns the fixed
no-documents result with empty sources and an unchanged state; and a
subsequent successful `process_documents` builds a fresh index holding
exactly the newly produced chunks, whose length equals the reported chunk
count. -/
theorem C7_reset_fresh (retrieve : List Document → String → List Document)
    (gen : String → Except String String) (s : RAGState) (q : String)
    (extractFmt : Fmt → PyPath → String) (split : Document → List Document)
    (paths : List PyPath) (r : ProcessStats) (s'' : RAGState)
    (h : process_documents extractFmt split (reset_vectorstore s) paths =
      Except.ok (r, s'')) :
    (reset_vectorstore s).vectorstore = none ∧
      (reset_vectorstore s).diskStore = none ∧
      query_rag retrieve gen (reset_vectorstore s) q =
        (⟨noDocsAnswer, []⟩, reset_vectorstore s) ∧
      s''.vectorstore = some ((extractedDocs extractFmt paths).flatMap split) ∧
      (s''.vectorstore.getD []).length = r.chunks_count := by
  obtain ⟨hr, hv, hd, hm⟩ := process_documents_ok _ _ _ _ _ _ h
  subst hr
  refine ⟨rfl, rfl, query_rag_cold _ _ _ _ rfl rfl, ?_, ?_⟩
  · simpa [reset_vectorstore] using hv
  · rw [hv]
    simp [reset_vectorstore]

/-- Witness for C7: reset a warm state with prior memory, then ingest one
`.txt` file. -/
theorem C7_reset_fresh_witness :
    ((none : Option (List Document)) = none ∧
      (none : Option (List Document)) = none ∧
      query_rag (fun _ _ => []) (fun _ => Except.ok "a")
          ⟨none, none, [⟨Role.user, "m"⟩]⟩ "q" =
        (⟨noDocsAnswer, []⟩, ⟨none, none, [⟨Role.user, "m"⟩]⟩) ∧
      (some [⟨"hello", "a.txt"⟩] : Option (List Document)) =
        some [⟨"hello", "a.txt"⟩] ∧
      (1 : Nat) = 1) :=
  C7_reset_fresh (fun _ _ => []) (fun _ => Except.ok "a")
    ⟨some [⟨"z", "zz.txt"⟩], some [], [⟨Role.user, "m"⟩]⟩ "q"
    helloExtract idSplit [⟨"a.txt", ".txt"⟩] ⟨"success", 1, 1⟩
    ⟨some [⟨"hello", "a.txt"⟩], some [⟨"hello", "a.txt"⟩],
      [⟨Role.user, "m"⟩]⟩ rfl

/-- C8: for a file whose lowercased extension has no entry in the dispatch
table (anything outside `.pdf`, `.docx`, `.rtf`, `.txt`),
`extract_text_from_file` does not raise: it returns empty text together with
the file's name, whichever extractors are installed. -/
theorem C8_unsupported_extension (extractFmt : Fmt → PyPath → String)
    (p : PyPath)
    (h : pyLower p.suffix ∉ ([".pdf", ".docx", ".rtf", ".txt"] : List String)) :
    extract_text_from_file extractFmt p = ("", p.name) := by
  have hnone : extractors (pyLower p.suffix) = none := by
    simp only [List.mem_cons, List.not_mem_nil, or_false, not_or] at h
    obtain ⟨h1, h2, h3, h4⟩ := h
    unfold extractors
    rw [if_neg h1, if_neg h2, if_neg h3, if_neg h4]
  unfold extract_text_from_file
  rw [hnone]

/-- Witness for C8: a Markdown file. -/
theorem C8_unsupported_extension_witness :
    extract_text_from_file helloExtract ⟨"notes.md", ".md"⟩ =
      ("", "notes.md") :=
  C8_unsupported_extension helloExtract ⟨"notes.md", ".md"⟩ (by decide)

/-- C9 as stated is false on the code: when every file of the batch extracts
to empty text, `process_documents` does abort the batch, raising the
`ValueError` of rag_pipeline.py lines 147-148 — here a batch of one `.txt`
file whose extraction yields the empty string. -/
theorem C9_all_empty_counterexample :
    process_documents (fun _ _ => "") idSplit ⟨none, none, []⟩
        [⟨"a.txt", ".txt"⟩] =
      Except.error "No text content extracted from uploaded files" :=
  rfl

/-- C9 amended: a file whose extraction yields empty (all-whitespace) text
is skipped — it contributes no document to the batch — and the batch still
succeeds provided at least one file extracts to non-empty text; only a batch
in which every file extracts to empty text aborts with the no-content
error. -/
theorem C9_empty_file_skipped (extractFmt : Fmt → PyPath → String)
    (split : Document → List Document) (s : RAGState) (paths : List PyPath)
    (p : PyPath)
    (hp : stripIsEmpty (extract_text_from_file extractFmt p).1 = true)
    (hne : extractedDocs extractFmt paths ≠ []) :
    extractedDocs extractFmt (p :: paths) = extractedDocs extractFmt paths ∧
      (process_documents extractFmt split s (p :: paths)).isOk = true := by
  have hskip : extractedDocs extractFmt (p :: paths) =
      extractedDocs extractFmt paths := by
    unfold extractedDocs
    rw [List.filterMap_cons]
    simp [hp]
  refine ⟨hskip, process_documents_ok_of_ne _ _ _ _ ?_⟩
  rw [hskip]
  exact hne

/-- Witness for C9 amended: a `.png` file (which always extracts to empty
text) ahead of a `.txt` file that extracts to `"hello"`. -/
theorem C9_empty_file_skipped_witness :
    extractedDocs helloExtract [⟨"img.png", ".png"⟩, ⟨"b.txt", ".txt"⟩] =
        extractedDocs helloExtract [⟨"b.txt", ".txt"⟩] ∧
      (process_documents helloExtract idSplit ⟨none, none, []⟩
        [⟨"img.png", ".png"⟩, ⟨"b.txt", ".txt"⟩]).isOk = true :=
  C9_empty_file_skipped helloExtract idSplit ⟨none, none, []⟩
    [⟨"b.txt", ".txt"⟩] ⟨"img.png", ".png"⟩ rfl (by decide)

/-- C10: the upload endpoint accepts `.png` files (it is in the allowed
extension set of main.py line 59), but the extractor dispatch table has no
`.png` entry, so extraction of any `.png` file returns empty text with the
file name, and such a file never contributes a document to the index. -/
theorem C10_png_accepted_never_indexed :
    ".png" ∈ allowed_extensions ∧
      extractors ".png" = none ∧
      (∀ name : String, uploadAccepts ⟨name, ".png"⟩ = true) ∧
      (∀ (extractFmt : Fmt → PyPath → String) (name : String),
        extract_text_from_file extractFmt ⟨name, ".png"⟩ = ("", name)) ∧
      (∀ (extractFmt : Fmt → PyPath → String) (name : String)
        (ps : List PyPath),
        extractedDocs extractFmt (⟨name, ".png"⟩ :: ps) =
          extractedDocs extractFmt ps) :=
  ⟨by decide, rfl, fun _ => rfl, fun _ _ => rfl, fun _ _ _ => rfl⟩

end RagMed
